import Mathlib

/-
Verification of the alarm engine in src/osi/src/alarm.c (Bluetooth OSI alarm
service). The definitions below are a shallow embedding of the C source:

  * `alarm_t` mirrors `struct alarm_t` (pointer identity is modelled by the
    extra `aid` field; the stats counters that the claims mention are kept
    inline).
  * `period_ms_t` is `uint64_t`; arithmetic that the C performs on it is
    modelled on `Nat` with explicit wrapping at `2^64` (`add64`, `sub64`),
    and the one value the source stores in an `int64_t`
    (`next_expiration = next->deadline - now()`) is reinterpreted with
    `int64OfUInt64`.
  * NULL pointers become `Option`; the callback and data payloads are opaque
    and modelled as `Option Nat` (only null-ness is ever branched on).
  * The external collaborators (wake-lock callout, posix timer, fixed queue)
    are visible only through the calls the engine makes to them, so each
    modelled operation returns the calls it performed: how many times
    `acquire_wake_lock` / `release_wake_lock` ran, the `itimerspec` passed to
    `timer_settime`, and the delta passed to `set_wake_alarm`.  Whether an
    `acquire_wake_lock` call succeeds is an input (`acquire_ok`), as is the
    current clock reading (`just_now`).
-/

/-- 2^64, the modulus of `uint64_t` (`period_ms_t`) arithmetic. -/
def UINT64_MOD : Nat := 18446744073709551616

/-- 2^63, the first value that is negative when a `uint64_t` is
reinterpreted as `int64_t`. -/
def INT64_HALF : Nat := 9223372036854775808

/-- `uint64_t` addition. -/
def add64 (a b : Nat) : Nat := (a + b) % UINT64_MOD

/-- `uint64_t` subtraction (two's complement wrap-around). -/
def sub64 (a b : Nat) : Nat := (a + (UINT64_MOD - b % UINT64_MOD)) % UINT64_MOD

/-- Reinterpretation of a `uint64_t` value as `int64_t`, as done by
`int64_t next_expiration = next->deadline - now()` in
`reschedule_root_alarm`. -/
def int64OfUInt64 (x : Nat) : Int := if x < INT64_HALF then (x : Int) else (x : Int) - (UINT64_MOD : Int)

/-- `struct alarm_t` (alarm.c lines 71-88) together with the per-alarm stats
counters the claims mention (alarm.c lines 59-69).  `aid` stands in for the
pointer identity used by `list_front(alarms) == alarm` comparisons and by
`list_remove` / `fixed_queue_try_remove_from_queue`.  `queue`, `callback`
and `data` are NULL-able pointers in C, hence `Option`. -/
structure alarm_t where
  aid : Nat
  creation_time : Nat
  period : Nat
  deadline : Nat
  prev_deadline : Nat
  is_periodic : Bool
  queue : Option Nat
  callback : Option Nat
  data : Option Nat
  scheduled_count : Nat
  canceled_count : Nat
  rescheduled_count : Nat
deriving DecidableEq

/-- `TIMER_INTERVAL_FOR_WAKELOCK_IN_MS` (alarm.c line 96), the default
short-horizon threshold.  The modelled functions take the threshold as a
parameter because the global is externally writable; this is its default. -/
def TIMER_INTERVAL_FOR_WAKELOCK_IN_MS : Int := 3000

/-- The `ms_into_period` computation of `schedule_next_instance`
(alarm.c lines 408-410): zero unless the alarm is periodic with a nonzero
period, in which case it is `(just_now - creation_time) % period` in
`uint64_t` arithmetic. -/
def ms_into_period (a : alarm_t) (just_now : Nat) : Nat :=
  if a.is_periodic && (a.period != 0) then sub64 just_now a.creation_time % a.period else 0

/-- The new-deadline computation of `schedule_next_instance`
(alarm.c line 411): `deadline = just_now + (period - ms_into_period)`.
`period - ms_into_period` cannot wrap because `ms_into_period` is either 0
or a remainder mod `period`. -/
def compute_deadline (a : alarm_t) (just_now : Nat) : Nat :=
  add64 just_now (a.period - ms_into_period a just_now)

/-- `list_remove(alarms, alarm)`: removes the first (by the at-most-once
invariant, only) node holding this alarm pointer. -/
def list_remove (l : List alarm_t) (aid : Nat) : List alarm_t :=
  l.eraseP (fun x => x.aid == aid)

/-- The drain loop of `remove_pending_alarm` (alarm.c lines 392-395):
`fixed_queue_try_remove_from_queue(alarm->queue, alarm)` is called until it
no longer finds the alarm, so every queued copy of the alarm is removed.
The queue is modelled by the list of alarm ids it currently holds. -/
def drain_queue : List Nat → Nat → List Nat
  | [], _ => []
  | x :: xs, aid => if x == aid then drain_queue xs aid else x :: drain_queue xs aid

/-- `remove_pending_alarm` (alarm.c lines 390-396): removes the alarm from
the pending list and drains all of its copies from its processing queue. -/
def remove_pending_alarm (alarms : List alarm_t) (queue : List Nat) (aid : Nat) :
    List alarm_t × List Nat :=
  (list_remove alarms aid, drain_queue queue aid)

/-- The insertion loop of `schedule_next_instance` (alarm.c lines 418-424):
walk the nodes; at the first node whose successor is the end of the list or
has a strictly greater deadline, insert after that node. -/
def insert_loop : List alarm_t → alarm_t → List alarm_t
  | [], a => [a]
  | [node], a => node :: [a]
  | node :: next :: rest, a =>
    if a.deadline < next.deadline then node :: a :: next :: rest
    else node :: insert_loop (next :: rest) a

/-- The full insertion of `schedule_next_instance` (alarm.c lines 414-425):
prepend when the list is empty or the front's deadline is strictly greater
than the new deadline, otherwise run the insertion loop. -/
def insert_pending (alarms : List alarm_t) (a : alarm_t) : List alarm_t :=
  match alarms with
  | [] => [a]
  | front :: rest =>
    if a.deadline < front.deadline then a :: front :: rest
    else insert_loop (front :: rest) a

/-- The `itimerspec.it_value` handed to `timer_settime` by
`reschedule_root_alarm`; `⟨0, 0⟩` disarms the timer. -/
structure WakeupTime where
  tv_sec : Nat
  tv_nsec : Nat
deriving DecidableEq

/-- Observable outcome of one `reschedule_root_alarm` run: the new value of
the `timer_set` global, the `itimerspec` passed to `timer_settime`, how many
`acquire_wake_lock` and `release_wake_lock` calls were made, and the delta
passed to `set_wake_alarm` when the long-horizon callout was used. -/
structure RescheduleResult where
  timer_set : Bool
  wakeup_time : WakeupTime
  acquire_calls : Nat
  release_calls : Nat
  set_wake_alarm_delta : Option Int
deriving DecidableEq

/-- The `done:` tail of `reschedule_root_alarm` (alarm.c lines 464-471):
`timer_set = wakeup_time.it_value.tv_sec != 0 || wakeup_time.it_value.tv_nsec != 0`,
then `release_wake_lock` exactly when the timer was set before and is no
longer set, then `timer_settime(timer, TIMER_ABSTIME, &wakeup_time, NULL)`. -/
def reschedule_done (timer_was_set : Bool) (wakeup_time : WakeupTime)
    (acquire_calls : Nat) (wake_alarm : Option Int) : RescheduleResult :=
  let ts := (wakeup_time.tv_sec != 0) || (wakeup_time.tv_nsec != 0)
  ⟨ts, wakeup_time, acquire_calls, if timer_was_set && !ts then 1 else 0, wake_alarm⟩

/-- `reschedule_root_alarm` (alarm.c lines 435-492).  `wakeup_time` starts
zeroed; an empty pending list goes straight to `done`.  Otherwise, with
`next_expiration = next->deadline - now()` as `int64_t`:
short horizon (`next_expiration < threshold`) acquires the wake lock when
`timer_set` is false (on failure it logs and jumps to `done` with
`wakeup_time` still zeroed) and then fills `wakeup_time` with the absolute
front deadline; long horizon calls `set_wake_alarm(next_expiration, ...)`
and leaves `wakeup_time` zeroed (a refusal is only logged).  The final
timer read-back that may re-post the expiration semaphore (lines 483-491)
touches no modelled state and is omitted. -/
def reschedule_root_alarm (threshold : Int) (alarms : List alarm_t) (timer_set : Bool)
    (just_now : Nat) (acquire_ok : Bool) : RescheduleResult :=
  match alarms with
  | [] => reschedule_done timer_set ⟨0, 0⟩ 0 none
  | next :: _ =>
    let next_expiration := int64OfUInt64 (sub64 next.deadline just_now)
    if next_expiration < threshold then
      if !timer_set then
        if acquire_ok then
          reschedule_done timer_set ⟨next.deadline / 1000, next.deadline % 1000 * 1000000⟩ 1 none
        else
          reschedule_done timer_set ⟨0, 0⟩ 1 none
      else
        reschedule_done timer_set ⟨next.deadline / 1000, next.deadline % 1000 * 1000000⟩ 0 none
    else
      reschedule_done timer_set ⟨0, 0⟩ 0 (some next_expiration)

/-- Result of `schedule_next_instance`: the alarm with its new deadline, the
new pending list and queue contents, the wake-policy state after the
conditional `reschedule_root_alarm` call, and whether that call happened. -/
structure ScheduleResult where
  alarm : alarm_t
  alarms : List alarm_t
  queue : List Nat
  timer_set : Bool
  acquire_calls : Nat
  release_calls : Nat
  set_wake_alarm_delta : Option Int
  rescheduled : Bool
deriving DecidableEq

/-- `schedule_next_instance` (alarm.c lines 399-432): remember whether the
alarm is at the front, remove it (and its queued copies) if it is armed
(`callback` non-null), compute the new deadline, insert sorted by deadline,
and re-evaluate the wake policy when the alarm was or is now the front. -/
def schedule_next_instance (threshold : Int) (alarms : List alarm_t) (queue : List Nat)
    (timer_set : Bool) (a : alarm_t) (just_now : Nat) (acquire_ok : Bool) : ScheduleResult :=
  let needs_reschedule :=
    match alarms with
    | [] => false
    | front :: _ => front.aid == a.aid
  let removed :=
    if a.callback.isSome then remove_pending_alarm alarms queue a.aid else (alarms, queue)
  let a' := { a with deadline := compute_deadline a just_now }
  let alarms' := insert_pending removed.1 a'
  let flag :=
    needs_reschedule ||
      (match alarms' with
       | [] => false
       | front :: _ => front.aid == a'.aid)
  if flag then
    let r := reschedule_root_alarm threshold alarms' timer_set just_now acquire_ok
    ⟨a', alarms', removed.2, r.timer_set, r.acquire_calls, r.release_calls,
      r.set_wake_alarm_delta, true⟩
  else
    ⟨a', alarms', removed.2, timer_set, 0, 0, none, false⟩

/-- Result of `alarm_cancel_internal`: the cleared alarm record, the new
pending list and queue contents, the wake-policy state after the conditional
`reschedule_root_alarm` call, and whether that call happened. -/
structure CancelResult where
  alarm : alarm_t
  alarms : List alarm_t
  queue : List Nat
  timer_set : Bool
  acquire_calls : Nat
  release_calls : Nat
  set_wake_alarm_delta : Option Int
  rescheduled : Bool
deriving DecidableEq

/-- `alarm_cancel_internal` (alarm.c lines 264-278): remember whether the
alarm is at the front, remove it from the pending list and from its queue,
clear `deadline`, `prev_deadline`, `callback`, `data` and `queue`, bump
`canceled_count`, and re-evaluate the wake policy when it was the front. -/
def alarm_cancel_internal (threshold : Int) (alarms : List alarm_t) (queue : List Nat)
    (timer_set : Bool) (a : alarm_t) (just_now : Nat) (acquire_ok : Bool) : CancelResult :=
  let needs_reschedule :=
    match alarms with
    | [] => false
    | front :: _ => front.aid == a.aid
  let removed := remove_pending_alarm alarms queue a.aid
  let a' := { a with deadline := 0, prev_deadline := 0, callback := none, data := none,
                     canceled_count := a.canceled_count + 1, queue := none }
  if needs_reschedule then
    let r := reschedule_root_alarm threshold removed.1 timer_set just_now acquire_ok
    ⟨a', removed.1, removed.2, r.timer_set, r.acquire_calls, r.release_calls,
      r.set_wake_alarm_delta, true⟩
  else
    ⟨a', removed.1, removed.2, timer_set, 0, 0, none, false⟩

/-- `alarm_is_scheduled` (alarm.c lines 280-284): false when the service was
never initialized (`alarms == NULL`) or the alarm pointer is NULL, otherwise
`alarm->callback != NULL`. -/
def alarm_is_scheduled (alarms : Option (List alarm_t)) (a : Option alarm_t) : Bool :=
  match alarms, a with
  | none, _ => false
  | some _, none => false
  | some _, some a => a.callback.isSome

/-- Observable outcome of one `alarm_queue_ready` run: the captured
`(callback, data, deadline-for-stats)` triple that the handler goes on to
invoke and account (or `none` when the dequeue came back empty), and the
alarm record after the handler's field updates. -/
structure QueueReadyResult where
  dispatched : Option (Option Nat × Option Nat × Nat)
  alarm : Option alarm_t
deriving DecidableEq

/-- `alarm_queue_ready` (alarm.c lines 522-564) up to the callback
invocation: dequeue (a `none` means the alarm was canceled: return), capture
`callback`, `data` and `deadline` — replacing the latter with
`prev_deadline` when the alarm is periodic — and, for a one-shot alarm,
clear `deadline`, `callback` and `data` before the callback runs. -/
def alarm_queue_ready (dequeued : Option alarm_t) : QueueReadyResult :=
  match dequeued with
  | none => ⟨none, none⟩
  | some alarm =>
    let callback := alarm.callback
    let data := alarm.data
    let deadline := if alarm.is_periodic then alarm.prev_deadline else alarm.deadline
    let alarm' :=
      if alarm.is_periodic then alarm
      else { alarm with deadline := 0, callback := none, data := none }
    ⟨some (callback, data, deadline), some alarm'⟩

/-- Write-back through the alarm pointer: a field update made after the
record was inserted into the pending list is visible in the list as well,
because the C list stores the pointer, not a copy. -/
def update_in (l : List alarm_t) (a : alarm_t) : List alarm_t :=
  l.map fun x => if x.aid == a.aid then a else x

/-- Observable outcome of one iteration of the `callback_dispatch` loop
body after the semaphore fired. -/
structure DispatchStepResult where
  alarms : List alarm_t
  queue : List Nat
  timer_set : Bool
  acquire_calls : Nat
  release_calls : Nat
  set_wake_alarm_delta : Option Int
  enqueued : Option alarm_t
deriving DecidableEq

/-- One iteration of the `callback_dispatch` loop body (alarm.c lines
581-607): when the pending list is empty or the front alarm's deadline is
still in the future, only `reschedule_root_alarm` runs and nothing is
dispatched; otherwise the front alarm is removed, a periodic alarm saves
`prev_deadline` and is re-scheduled (with `rescheduled_count` bumped), the
wake policy is re-evaluated, and the alarm is enqueued on its processing
queue. -/
def callback_dispatch_step (threshold : Int) (alarms : List alarm_t) (queue : List Nat)
    (timer_set : Bool) (just_now : Nat) (acquire_ok : Bool) : DispatchStepResult :=
  match alarms with
  | [] =>
    let r := reschedule_root_alarm threshold [] timer_set just_now acquire_ok
    ⟨[], queue, r.timer_set, r.acquire_calls, r.release_calls, r.set_wake_alarm_delta, none⟩
  | front :: rest =>
    if front.deadline > just_now then
      let r := reschedule_root_alarm threshold (front :: rest) timer_set just_now acquire_ok
      ⟨front :: rest, queue, r.timer_set, r.acquire_calls, r.release_calls,
        r.set_wake_alarm_delta, none⟩
    else
      let alarms1 := list_remove (front :: rest) front.aid
      if front.is_periodic then
        let a1 := { front with prev_deadline := front.deadline }
        let s := schedule_next_instance threshold alarms1 queue timer_set a1 just_now acquire_ok
        let a2 := { s.alarm with rescheduled_count := s.alarm.rescheduled_count + 1 }
        let alarms2 := update_in s.alarms a2
        let r := reschedule_root_alarm threshold alarms2 s.timer_set just_now acquire_ok
        ⟨alarms2, s.queue ++ [a2.aid], r.timer_set, s.acquire_calls + r.acquire_calls,
          s.release_calls + r.release_calls, r.set_wake_alarm_delta, some a2⟩
      else
        let r := reschedule_root_alarm threshold alarms1 timer_set just_now acquire_ok
        ⟨alarms1, queue ++ [front.aid], r.timer_set, r.acquire_calls, r.release_calls,
          r.set_wake_alarm_delta, some front⟩

/-- Process-wide engine state: the `alarms` list global (`none` before
`lazy_initialize` and after `alarm_cleanup`), the contents of the default
processing queue, the `timer_set` global, and the cumulative number of
`acquire_wake_lock` / `release_wake_lock` calls the engine has made. -/
structure EngineState where
  alarms : Option (List alarm_t)
  queue : List Nat
  timer_set : Bool
  acquires : Nat
  releases : Nat
deriving DecidableEq

/-- The state right after `lazy_initialize` (alarm.c lines 315-373). -/
def engine_init : EngineState := ⟨some [], [], false, 0, 0⟩

/-- `alarm_set_internal` (alarm.c lines 227-246) at engine level: asserts
that the service is initialized (`none` models the failed
`assert(alarms != NULL)`), records `creation_time`, `period`, `queue`,
`callback` and `data`, runs `schedule_next_instance`, and bumps
`scheduled_count` (a write through the alarm pointer, hence `update_in`). -/
def alarm_set_internal_eng (s : EngineState) (a : alarm_t) (period : Nat) (cb : Nat)
    (data : Option Nat) (qid : Nat) (just_now : Nat) (acquire_ok : Bool) :
    Option (EngineState × alarm_t) :=
  match s.alarms with
  | none => none
  | some l =>
    let a1 := { a with creation_time := just_now, period := period, queue := some qid,
                       callback := some cb, data := data }
    let r := schedule_next_instance TIMER_INTERVAL_FOR_WAKELOCK_IN_MS l s.queue s.timer_set
               a1 just_now acquire_ok
    let a2 := { r.alarm with scheduled_count := r.alarm.scheduled_count + 1 }
    some ({ s with
              alarms := some (update_in r.alarms a2)
              queue := r.queue
              timer_set := r.timer_set
              acquires := s.acquires + r.acquire_calls
              releases := s.releases + r.release_calls }, a2)

/-- `alarm_cancel` (alarm.c lines 248-260) at engine level:
`assert(alarms != NULL)` first (modelled by `none`), then a NULL alarm
returns with nothing touched, otherwise `alarm_cancel_internal` runs under
the monitor. -/
def alarm_cancel_eng (s : EngineState) (a : Option alarm_t) (just_now : Nat)
    (acquire_ok : Bool) : Option (EngineState × Option alarm_t) :=
  match s.alarms with
  | none => none
  | some l =>
    match a with
    | none => some (s, none)
    | some a =>
      let r := alarm_cancel_internal TIMER_INTERVAL_FOR_WAKELOCK_IN_MS l s.queue s.timer_set
                 a just_now acquire_ok
      some ({ s with
                alarms := some r.alarms
                queue := r.queue
                timer_set := r.timer_set
                acquires := s.acquires + r.acquire_calls
                releases := s.releases + r.release_calls }, some r.alarm)

/-- `alarm_free` (alarm.c lines 191-199) at engine level: a NULL alarm
returns immediately (before anything is touched, so this works even when
the service was never initialized); otherwise `alarm_cancel` runs and the
record is destroyed. -/
def alarm_free_eng (s : EngineState) (a : Option alarm_t) (just_now : Nat)
    (acquire_ok : Bool) : Option EngineState :=
  match a with
  | none => some s
  | some x => (alarm_cancel_eng s (some x) just_now acquire_ok).map (fun p => p.1)

/-- `alarm_cleanup` (alarm.c lines 286-313): returns immediately when
`lazy_initialize` never ran; otherwise it stops the dispatcher, frees the
default queue and thread, deletes both timers, frees the semaphore and the
pending list, and destroys the monitor.  The source makes no
`release_wake_lock` call on this path and never reads or writes
`timer_set`, which is exactly what the wake-lock-balance claim is about. -/
def alarm_cleanup (s : EngineState) : EngineState :=
  match s.alarms with
  | none => s
  | some _ => { s with alarms := none, queue := [] }

lemma sub64_eq_of_le (a b : Nat) (hba : b ≤ a) (ha : a < UINT64_MOD) : sub64 a b = a - b := by
  unfold sub64
  have hb : b % UINT64_MOD = b := Nat.mod_eq_of_lt (lt_of_le_of_lt hba ha)
  rw [hb]
  have h1 : a + (UINT64_MOD - b) = (a - b) + UINT64_MOD := by omega
  rw [h1, Nat.add_mod_right]
  exact Nat.mod_eq_of_lt (by omega)

lemma add64_eq_of_lt (a b : Nat) (h : a + b < UINT64_MOD) : add64 a b = a + b :=
  Nat.mod_eq_of_lt h

lemma schedule_next_instance_alarm (threshold : Int) (l : List alarm_t) (q : List Nat)
    (ts acquire_ok : Bool) (a : alarm_t) (just_now : Nat) :
    (schedule_next_instance threshold l q ts a just_now acquire_ok).alarm
      = { a with deadline := compute_deadline a just_now } := by
  simp only [schedule_next_instance]
  split <;> split <;> rfl

/-- Claim C4: `schedule_next_instance` computes the new deadline as
`now + (period - ((now - creation_time) mod period))` when the alarm is
periodic with a positive period (anchoring every firing to
`creation_time + k * period`), and as `now + period` with
`ms_into_period = 0` otherwise. -/
theorem C4_deadline_formula (threshold : Int) (l : List alarm_t) (q : List Nat)
    (ts acquire_ok : Bool) (a : alarm_t) (just_now : Nat)
    (h1 : a.creation_time ≤ just_now) (h2 : just_now + a.period < UINT64_MOD) :
    (schedule_next_instance threshold l q ts a just_now acquire_ok).alarm.deadline
        = compute_deadline a just_now
    ∧ (a.is_periodic = true → a.period ≠ 0 →
        compute_deadline a just_now
            = just_now + (a.period - (just_now - a.creation_time) % a.period)
          ∧ ∃ k, 0 < k ∧ compute_deadline a just_now = a.creation_time + k * a.period)
    ∧ (a.is_periodic = false ∨ a.period = 0 →
        ms_into_period a just_now = 0 ∧ compute_deadline a just_now = just_now + a.period) := by
  have hnow : just_now < UINT64_MOD := by omega
  refine ⟨by rw [schedule_next_instance_alarm], ?_, ?_⟩
  · intro hp hper
    have hcond : (a.is_periodic && (a.period != 0)) = true := by
      rw [hp]; simp [hper]
    have hsub : sub64 just_now a.creation_time = just_now - a.creation_time :=
      sub64_eq_of_le _ _ h1 hnow
    have hms : ms_into_period a just_now = (just_now - a.creation_time) % a.period := by
      unfold ms_into_period
      rw [hcond, if_pos rfl, hsub]
    have hmlt : (just_now - a.creation_time) % a.period < a.period :=
      Nat.mod_lt _ (Nat.pos_of_ne_zero hper)
    have hcd : compute_deadline a just_now
        = just_now + (a.period - (just_now - a.creation_time) % a.period) := by
      unfold compute_deadline
      rw [hms]
      exact add64_eq_of_lt _ _ (by omega)
    refine ⟨hcd, (just_now - a.creation_time) / a.period + 1, Nat.succ_pos _, ?_⟩
    have hdm : a.period * ((just_now - a.creation_time) / a.period)
        + (just_now - a.creation_time) % a.period = just_now - a.creation_time :=
      Nat.div_add_mod _ _
    have hmul : ((just_now - a.creation_time) / a.period + 1) * a.period
        = a.period * ((just_now - a.creation_time) / a.period) + a.period := by ring
    rw [hcd, hmul]
    generalize a.period * ((just_now - a.creation_time) / a.period) = P at hdm ⊢
    omega
  · intro h
    have hcond : (a.is_periodic && (a.period != 0)) = false := by
      rcases h with h | h
      · rw [h]; rfl
      · rw [h]; simp
    have hms : ms_into_period a just_now = 0 := by
      unfold ms_into_period
      rw [hcond]
      rfl
    refine ⟨hms, ?_⟩
    unfold compute_deadline
    rw [hms, Nat.sub_zero]
    exact add64_eq_of_lt _ _ h2

/-- Witness for C4 at a concrete periodic alarm: creation time 5, period
10, re-evaluated at time 27; the new deadline is 35 = 5 + 3 * 10. -/
theorem C4_deadline_formula_witness :
    (schedule_next_instance 3000 [] [] false
        ⟨1, 5, 10, 0, 0, true, some 0, some 7, none, 0, 0, 0⟩ 27 true).alarm.deadline
        = compute_deadline ⟨1, 5, 10, 0, 0, true, some 0, some 7, none, 0, 0, 0⟩ 27
    ∧ ((⟨1, 5, 10, 0, 0, true, some 0, some 7, none, 0, 0, 0⟩ : alarm_t).is_periodic = true →
        (⟨1, 5, 10, 0, 0, true, some 0, some 7, none, 0, 0, 0⟩ : alarm_t).period ≠ 0 →
        compute_deadline ⟨1, 5, 10, 0, 0, true, some 0, some 7, none, 0, 0, 0⟩ 27
            = 27 + (10 - (27 - 5) % 10)
          ∧ ∃ k, 0 < k ∧ compute_deadline ⟨1, 5, 10, 0, 0, true, some 0, some 7, none, 0, 0, 0⟩ 27
              = 5 + k * 10)
    ∧ ((⟨1, 5, 10, 0, 0, true, some 0, some 7, none, 0, 0, 0⟩ : alarm_t).is_periodic = false ∨
        (⟨1, 5, 10, 0, 0, true, some 0, some 7, none, 0, 0, 0⟩ : alarm_t).period = 0 →
        ms_into_period ⟨1, 5, 10, 0, 0, true, some 0, some 7, none, 0, 0, 0⟩ 27 = 0
          ∧ compute_deadline ⟨1, 5, 10, 0, 0, true, some 0, some 7, none, 0, 0, 0⟩ 27 = 27 + 10) :=
  C4_deadline_formula 3000 [] [] false true
    ⟨1, 5, 10, 0, 0, true, some 0, some 7, none, 0, 0, 0⟩ 27 (by decide) (by decide)

/-- Claim C9: a periodic alarm with period 0 is accepted; the guard leaves
`ms_into_period = 0` (no modulo is taken, so no division by zero) and the
new deadline is `now` itself — the alarm degrades to rescheduling
immediately. -/
theorem C9_zero_period_immediate (threshold : Int) (l : List alarm_t) (q : List Nat)
    (ts acquire_ok : Bool) (a : alarm_t) (just_now : Nat)
    (hp : a.is_periodic = true) (h0 : a.period = 0) (hn : just_now < UINT64_MOD) :
    ms_into_period a just_now = 0
    ∧ compute_deadline a just_now = just_now
    ∧ (schedule_next_instance threshold l q ts a just_now acquire_ok).alarm.deadline
        = just_now := by
  have hms : ms_into_period a just_now = 0 := by
    unfold ms_into_period
    rw [h0]
    simp
  have hcd : compute_deadline a just_now = just_now := by
    unfold compute_deadline
    rw [hms, h0]
    simpa using add64_eq_of_lt just_now 0 (by omega)
  exact ⟨hms, hcd, by rw [schedule_next_instance_alarm]; exact hcd⟩

/-- Witness for C9 at a concrete periodic alarm with period 0 re-evaluated
at time 42: the new deadline is 42. -/
theorem C9_zero_period_immediate_witness :
    ms_into_period ⟨2, 7, 0, 9, 0, true, some 0, some 7, none, 0, 0, 0⟩ 42 = 0
    ∧ compute_deadline ⟨2, 7, 0, 9, 0, true, some 0, some 7, none, 0, 0, 0⟩ 42 = 42
    ∧ (schedule_next_instance 3000 [] [] false
        ⟨2, 7, 0, 9, 0, true, some 0, some 7, none, 0, 0, 0⟩ 42 true).alarm.deadline = 42 :=
  C9_zero_period_immediate 3000 [] [] false true
    ⟨2, 7, 0, 9, 0, true, some 0, some 7, none, 0, 0, 0⟩ 42 rfl rfl (by decide)

/-- The ordering invariant of the pending list: earlier entry's deadline is
at most the later entry's. -/
def deadlineLE (x y : alarm_t) : Prop := x.deadline ≤ y.deadline

instance : IsTrans alarm_t deadlineLE := ⟨fun _ _ _ => Nat.le_trans⟩

instance (x y : alarm_t) : Decidable (deadlineLE x y) :=
  inferInstanceAs (Decidable (x.deadline ≤ y.deadline))

lemma insert_loop_cons_head (x : alarm_t) (xs : List alarm_t) (a : alarm_t) :
    (insert_loop (x :: xs) a).head? = some x := by
  cases xs with
  | nil => rfl
  | cons y rest =>
    simp only [insert_loop]
    split <;> rfl

lemma chain'_insert_loop (l : List alarm_t) (a : alarm_t) (hc : List.Chain' deadlineLE l)
    (hh : ∀ x, l.head? = some x → x.deadline ≤ a.deadline) :
    List.Chain' deadlineLE (insert_loop l a) := by
  induction l with
  | nil => simp [insert_loop]
  | cons x xs ih =>
    cases xs with
    | nil =>
      have hx : deadlineLE x a := hh x rfl
      simp [insert_loop, List.chain'_cons, hx]
    | cons y rest =>
      rw [List.chain'_cons] at hc
      obtain ⟨hxy, hyr⟩ := hc
      by_cases hlt : a.deadline < y.deadline
      · rw [show insert_loop (x :: y :: rest) a = x :: a :: y :: rest from by
          simp [insert_loop, hlt]]
        exact List.Chain'.cons (hh x rfl) (List.Chain'.cons (le_of_lt hlt) hyr)
      · rw [show insert_loop (x :: y :: rest) a = x :: insert_loop (y :: rest) a from by
          simp [insert_loop, hlt]]
        have h2 : List.Chain' deadlineLE (insert_loop (y :: rest) a) := by
          refine ih hyr ?_
          intro z hz
          simp only [List.head?_cons, Option.some.injEq] at hz
          exact hz ▸ Nat.le_of_not_lt hlt
        rw [List.chain'_cons']
        refine ⟨?_, h2⟩
        intro z hz
        rw [insert_loop_cons_head] at hz
        exact (Option.mem_some_iff.mp hz) ▸ hxy

lemma insert_loop_eq (l : List alarm_t) (a : alarm_t)
    (hh : ∀ x, l.head? = some x → x.deadline ≤ a.deadline) :
    insert_loop l a
      = l.takeWhile (fun x => decide (x.deadline ≤ a.deadline))
        ++ a :: l.dropWhile (fun x => decide (x.deadline ≤ a.deadline)) := by
  induction l with
  | nil => rfl
  | cons x xs ih =>
    have hx : x.deadline ≤ a.deadline := hh x rfl
    cases xs with
    | nil =>
      simp [insert_loop, List.takeWhile_cons, List.dropWhile_cons, hx]
    | cons y rest =>
      by_cases hlt : a.deadline < y.deadline
      · have hy : ¬(y.deadline ≤ a.deadline) := by omega
        simp [insert_loop, hlt, List.takeWhile_cons, List.dropWhile_cons, hx, hy]
      · have hy : y.deadline ≤ a.deadline := Nat.le_of_not_lt hlt
        have ihy := ih (fun z hz => by
          simp only [List.head?_cons, Option.some.injEq] at hz
          exact hz ▸ hy)
        rw [show insert_loop (x :: y :: rest) a = x :: insert_loop (y :: rest) a from by
          simp [insert_loop, hlt]]
        rw [ihy]
        simp [List.takeWhile_cons, List.dropWhile_cons, hx]

lemma insert_pending_eq (l : List alarm_t) (a : alarm_t) :
    insert_pending l a
      = l.takeWhile (fun x => decide (x.deadline ≤ a.deadline))
        ++ a :: l.dropWhile (fun x => decide (x.deadline ≤ a.deadline)) := by
  cases l with
  | nil => rfl
  | cons f rest =>
    by_cases hlt : a.deadline < f.deadline
    · have hf : ¬(f.deadline ≤ a.deadline) := by omega
      simp [insert_pending, hlt, List.takeWhile_cons, List.dropWhile_cons, hf]
    · rw [show insert_pending (f :: rest) a = insert_loop (f :: rest) a from by
        simp [insert_pending, hlt]]
      refine insert_loop_eq (f :: rest) a ?_
      intro z hz
      simp only [List.head?_cons, Option.some.injEq] at hz
      exact hz ▸ Nat.le_of_not_lt hlt

lemma chain'_insert_pending (l : List alarm_t) (a : alarm_t)
    (h : List.Chain' deadlineLE l) : List.Chain' deadlineLE (insert_pending l a) := by
  cases l with
  | nil => simp [insert_pending]
  | cons f rest =>
    by_cases hlt : a.deadline < f.deadline
    · rw [show insert_pending (f :: rest) a = a :: f :: rest from by
        simp [insert_pending, hlt]]
      exact List.Chain'.cons (le_of_lt hlt) h
    · rw [show insert_pending (f :: rest) a = insert_loop (f :: rest) a from by
        simp [insert_pending, hlt]]
      refine chain'_insert_loop _ _ h ?_
      intro z hz
      simp only [List.head?_cons, Option.some.injEq] at hz
      exact hz ▸ Nat.le_of_not_lt hlt

lemma chain'_list_remove (l : List alarm_t) (aid : Nat)
    (h : List.Chain' deadlineLE l) : List.Chain' deadlineLE (list_remove l aid) :=
  List.Chain'.sublist h (List.eraseP_sublist l)

lemma dropWhile_gt (l : List alarm_t) (a : alarm_t) (hp : List.Pairwise deadlineLE l) :
    ∀ b ∈ l.dropWhile (fun x => decide (x.deadline ≤ a.deadline)),
      a.deadline < b.deadline := by
  induction l with
  | nil => simp
  | cons x xs ih =>
    rw [List.pairwise_cons] at hp
    obtain ⟨hx, hxs⟩ := hp
    by_cases hxa : x.deadline ≤ a.deadline
    · rw [List.dropWhile_cons_of_pos (by simpa using hxa)]
      exact ih hxs
    · rw [List.dropWhile_cons_of_neg (by simpa using hxa)]
      intro b hb
      rcases List.mem_cons.mp hb with hb | hb
      · rw [hb]; omega
      · have h2 : x.deadline ≤ b.deadline := hx b hb
        omega

lemma schedule_next_instance_alarms (threshold : Int) (l : List alarm_t) (q : List Nat)
    (ts acquire_ok : Bool) (a : alarm_t) (just_now : Nat) :
    (schedule_next_instance threshold l q ts a just_now acquire_ok).alarms
      = insert_pending (if a.callback.isSome then list_remove l a.aid else l)
          { a with deadline := compute_deadline a just_now } := by
  simp only [schedule_next_instance]
  split <;> split <;> rfl

/-- Claim C3: inserting via the loop of `schedule_next_instance` keeps the
pending list sorted non-decreasingly by deadline (as does removal), the
insertion point is exactly after the maximal prefix of entries whose
deadline is at most the new one, and every entry placed after the new alarm
has a strictly greater deadline — so an equal-deadline peer is never
preempted. -/
theorem C3_pending_sorted_insert (l : List alarm_t) (a : alarm_t) (aid : Nat)
    (threshold : Int) (q : List Nat) (ts acquire_ok : Bool) (just_now : Nat)
    (h : List.Chain' deadlineLE l) :
    List.Chain' deadlineLE (insert_pending l a)
    ∧ List.Chain' deadlineLE (list_remove l aid)
    ∧ List.Chain' deadlineLE
        (schedule_next_instance threshold l q ts a just_now acquire_ok).alarms
    ∧ insert_pending l a
        = l.takeWhile (fun x => decide (x.deadline ≤ a.deadline))
          ++ a :: l.dropWhile (fun x => decide (x.deadline ≤ a.deadline))
    ∧ ∀ b ∈ l.dropWhile (fun x => decide (x.deadline ≤ a.deadline)),
        a.deadline < b.deadline := by
  refine ⟨chain'_insert_pending l a h, chain'_list_remove l aid h, ?_, insert_pending_eq l a, ?_⟩
  · rw [schedule_next_instance_alarms]
    refine chain'_insert_pending _ _ ?_
    split
    · exact chain'_list_remove l a.aid h
    · exact h
  · exact dropWhile_gt l a (List.chain'_iff_pairwise.mp h)

/-- Witness for C3: inserting a deadline-10 alarm into a sorted list whose
front already has deadline 10 lands after that front entry. -/
theorem C3_pending_sorted_insert_witness :
    List.Chain' deadlineLE
        (insert_pending [⟨1, 0, 0, 10, 0, false, some 0, some 7, none, 0, 0, 0⟩,
            ⟨2, 0, 0, 20, 0, false, some 0, some 8, none, 0, 0, 0⟩]
          ⟨3, 0, 0, 10, 0, false, some 0, none, none, 0, 0, 0⟩)
    ∧ List.Chain' deadlineLE
        (list_remove [⟨1, 0, 0, 10, 0, false, some 0, some 7, none, 0, 0, 0⟩,
            ⟨2, 0, 0, 20, 0, false, some 0, some 8, none, 0, 0, 0⟩] 2)
    ∧ List.Chain' deadlineLE
        (schedule_next_instance 3000
            [⟨1, 0, 0, 10, 0, false, some 0, some 7, none, 0, 0, 0⟩,
              ⟨2, 0, 0, 20, 0, false, some 0, some 8, none, 0, 0, 0⟩] [] false
            ⟨3, 0, 0, 10, 0, false, some 0, none, none, 0, 0, 0⟩ 0 true).alarms
    ∧ insert_pending [⟨1, 0, 0, 10, 0, false, some 0, some 7, none, 0, 0, 0⟩,
            ⟨2, 0, 0, 20, 0, false, some 0, some 8, none, 0, 0, 0⟩]
          ⟨3, 0, 0, 10, 0, false, some 0, none, none, 0, 0, 0⟩
        = (([⟨1, 0, 0, 10, 0, false, some 0, some 7, none, 0, 0, 0⟩,
              ⟨2, 0, 0, 20, 0, false, some 0, some 8, none, 0, 0, 0⟩] : List alarm_t).takeWhile
                (fun x => decide (x.deadline ≤
                  (⟨3, 0, 0, 10, 0, false, some 0, none, none, 0, 0, 0⟩ : alarm_t).deadline)))
          ++ (⟨3, 0, 0, 10, 0, false, some 0, none, none, 0, 0, 0⟩ : alarm_t)
            :: (([⟨1, 0, 0, 10, 0, false, some 0, some 7, none, 0, 0, 0⟩,
                  ⟨2, 0, 0, 20, 0, false, some 0, some 8, none, 0, 0, 0⟩] : List alarm_t).dropWhile
                (fun x => decide (x.deadline ≤
                  (⟨3, 0, 0, 10, 0, false, some 0, none, none, 0, 0, 0⟩ : alarm_t).deadline)))
    ∧ ∀ b ∈ (([⟨1, 0, 0, 10, 0, false, some 0, some 7, none, 0, 0, 0⟩,
          ⟨2, 0, 0, 20, 0, false, some 0, some 8, none, 0, 0, 0⟩] : List alarm_t).dropWhile
            (fun x => decide (x.deadline ≤
              (⟨3, 0, 0, 10, 0, false, some 0, none, none, 0, 0, 0⟩ : alarm_t).deadline))),
        (⟨3, 0, 0, 10, 0, false, some 0, none, none, 0, 0, 0⟩ : alarm_t).deadline < b.deadline :=
  C3_pending_sorted_insert
    [⟨1, 0, 0, 10, 0, false, some 0, some 7, none, 0, 0, 0⟩,
      ⟨2, 0, 0, 20, 0, false, some 0, some 8, none, 0, 0, 0⟩]
    ⟨3, 0, 0, 10, 0, false, some 0, none, none, 0, 0, 0⟩ 2 3000 [] false true 0
    (List.chain'_pair.mpr (by decide))

/-- Claim C5 (amended): on a re-evaluation with a non-empty pending list,
letting `delta = front.deadline - now`: in the short-horizon branch
(`delta < threshold`) `acquire_wake_lock` is called exactly when the lock
is not already held, and — provided the lock was already held or the
acquisition succeeds — `timer_settime` receives the absolute front deadline
(seconds/nanoseconds split of the millisecond value) and the wake-alarm
callout is not used; in the long-horizon branch (`threshold ≤ delta`)
`set_wake_alarm` is asked to fire `delta` ms out, no acquire happens, the
timer stays disarmed, `timer_set` ends false, and a previously held wake
lock is released. -/
theorem C5_wake_policy_branches (threshold : Int) (front : alarm_t) (rest : List alarm_t)
    (ts acquire_ok : Bool) (just_now : Nat) :
    (int64OfUInt64 (sub64 front.deadline just_now) < threshold →
      (reschedule_root_alarm threshold (front :: rest) ts just_now acquire_ok).acquire_calls
          = (if ts then 0 else 1)
      ∧ (ts = true ∨ acquire_ok = true →
          (reschedule_root_alarm threshold (front :: rest) ts just_now acquire_ok).wakeup_time
              = ⟨front.deadline / 1000, front.deadline % 1000 * 1000000⟩
          ∧ (reschedule_root_alarm threshold (front :: rest) ts just_now
              acquire_ok).set_wake_alarm_delta = none))
    ∧ (threshold ≤ int64OfUInt64 (sub64 front.deadline just_now) →
      (reschedule_root_alarm threshold (front :: rest) ts just_now acquire_ok).set_wake_alarm_delta
          = some (int64OfUInt64 (sub64 front.deadline just_now))
      ∧ (reschedule_root_alarm threshold (front :: rest) ts just_now acquire_ok).acquire_calls = 0
      ∧ (reschedule_root_alarm threshold (front :: rest) ts just_now acquire_ok).timer_set = false
      ∧ (reschedule_root_alarm threshold (front :: rest) ts just_now acquire_ok).wakeup_time
          = ⟨0, 0⟩
      ∧ (reschedule_root_alarm threshold (front :: rest) ts just_now acquire_ok).release_calls
          = (if ts then 1 else 0)) := by
  constructor
  · intro hlt
    simp only [reschedule_root_alarm]
    rw [if_pos hlt]
    cases ts <;> cases acquire_ok <;> simp [reschedule_done]
  · intro hge
    simp only [reschedule_root_alarm]
    rw [if_neg (not_lt.mpr hge)]
    cases ts <;> simp [reschedule_done]

/-- Witness for C5 at a concrete short-horizon input (front deadline 100,
now 0, lock not yet held, acquisition succeeds): one acquire call and the
timer armed at absolute 100 ms. -/
theorem C5_wake_policy_branches_witness :
    (reschedule_root_alarm 3000 [⟨1, 0, 100, 100, 0, false, some 0, some 7, none, 0, 0, 0⟩]
        false 0 true).acquire_calls = 1
    ∧ (reschedule_root_alarm 3000 [⟨1, 0, 100, 100, 0, false, some 0, some 7, none, 0, 0, 0⟩]
        false 0 true).wakeup_time = ⟨0, 100000000⟩
    ∧ (reschedule_root_alarm 3000 [⟨1, 0, 100, 100, 0, false, some 0, some 7, none, 0, 0, 0⟩]
        false 0 true).set_wake_alarm_delta = none := by
  have h := (C5_wake_policy_branches 3000
    ⟨1, 0, 100, 100, 0, false, some 0, some 7, none, 0, 0, 0⟩ [] false true 0).1 (by decide)
  exact ⟨h.1, (h.2 (Or.inr rfl)).1, (h.2 (Or.inr rfl)).2⟩

/-- Counterexample to claim C5 as stated: with the front alarm 2000 ms out
(inside the short horizon) and a failing wake-lock acquisition, the
in-process timer is NOT armed for the absolute front deadline — the
`itimerspec` stays zeroed — and no wake alarm is set either. -/
theorem C5_claim_counterexample :
    int64OfUInt64 (sub64 2000 0) < 3000
    ∧ (reschedule_root_alarm 3000 [⟨1, 0, 2000, 2000, 0, false, some 0, some 7, none, 0, 0, 0⟩]
        false 0 false).wakeup_time ≠ ⟨2000 / 1000, 2000 % 1000 * 1000000⟩
    ∧ (reschedule_root_alarm 3000 [⟨1, 0, 2000, 2000, 0, false, some 0, some 7, none, 0, 0, 0⟩]
        false 0 false).timer_set = false
    ∧ (reschedule_root_alarm 3000 [⟨1, 0, 2000, 2000, 0, false, some 0, some 7, none, 0, 0, 0⟩]
        false 0 false).set_wake_alarm_delta = none := by
  decide

/-- Claim C2 (amended): when `acquire_wake_lock` fails during a
re-evaluation whose front alarm is within the short horizon, the failure is
logged and the re-evaluation gives up: the `goto done` leaves the
`itimerspec` zeroed, so the in-process timer is disarmed, no kernel wake
alarm is set, `timer_set` ends false, and no release happens (the lock was
not held); the alarm can only fire after some later re-evaluation re-arms
a timer path. -/
theorem C2_acquire_failure_arms_nothing (threshold : Int) (front : alarm_t)
    (rest : List alarm_t) (just_now : Nat)
    (h : int64OfUInt64 (sub64 front.deadline just_now) < threshold) :
    (reschedule_root_alarm threshold (front :: rest) false just_now false).acquire_calls = 1
    ∧ (reschedule_root_alarm threshold (front :: rest) false just_now false).wakeup_time = ⟨0, 0⟩
    ∧ (reschedule_root_alarm threshold (front :: rest) false just_now false).timer_set = false
    ∧ (reschedule_root_alarm threshold (front :: rest) false just_now false).set_wake_alarm_delta
        = none
    ∧ (reschedule_root_alarm threshold (front :: rest) false just_now false).release_calls = 0 := by
  simp only [reschedule_root_alarm]
  rw [if_pos h]
  simp [reschedule_done]

/-- Witness for C2 at a concrete input: front deadline 50, now 0, lock not
held, acquisition fails. -/
theorem C2_acquire_failure_arms_nothing_witness :
    (reschedule_root_alarm 3000 [⟨1, 0, 50, 50, 0, false, some 0, some 7, none, 0, 0, 0⟩]
        false 0 false).acquire_calls = 1
    ∧ (reschedule_root_alarm 3000 [⟨1, 0, 50, 50, 0, false, some 0, some 7, none, 0, 0, 0⟩]
        false 0 false).wakeup_time = ⟨0, 0⟩
    ∧ (reschedule_root_alarm 3000 [⟨1, 0, 50, 50, 0, false, some 0, some 7, none, 0, 0, 0⟩]
        false 0 false).timer_set = false
    ∧ (reschedule_root_alarm 3000 [⟨1, 0, 50, 50, 0, false, some 0, some 7, none, 0, 0, 0⟩]
        false 0 false).set_wake_alarm_delta = none
    ∧ (reschedule_root_alarm 3000 [⟨1, 0, 50, 50, 0, false, some 0, some 7, none, 0, 0, 0⟩]
        false 0 false).release_calls = 0 :=
  C2_acquire_failure_arms_nothing 3000 ⟨1, 0, 50, 50, 0, false, some 0, some 7, none, 0, 0, 0⟩
    [] 0 (by decide)

/-- Counterexample to claim C2 as stated: with the front alarm 100 ms out
and a failing wake-lock acquisition the re-evaluation does NOT still arm a
timer path — both the in-process timer and the kernel wake alarm are left
disarmed. -/
theorem C2_claim_counterexample :
    int64OfUInt64 (sub64 100 0) < 3000
    ∧ (reschedule_root_alarm 3000 [⟨1, 0, 100, 100, 0, false, some 0, some 7, none, 0, 0, 0⟩]
        false 0 false).acquire_calls = 1
    ∧ (reschedule_root_alarm 3000 [⟨1, 0, 100, 100, 0, false, some 0, some 7, none, 0, 0, 0⟩]
        false 0 false).wakeup_time = ⟨0, 0⟩
    ∧ (reschedule_root_alarm 3000 [⟨1, 0, 100, 100, 0, false, some 0, some 7, none, 0, 0, 0⟩]
        false 0 false).timer_set = false
    ∧ (reschedule_root_alarm 3000 [⟨1, 0, 100, 100, 0, false, some 0, some 7, none, 0, 0, 0⟩]
        false 0 false).set_wake_alarm_delta = none := by
  decide

/-- Claim C6: on a wake-up of the dispatch loop with an empty pending list
or a front alarm whose deadline is still in the future, the step only
re-evaluates the wake policy: nothing is enqueued for callback processing,
and the pending list and worker queue are untouched — so a spurious or
duplicate semaphore post causes no callback invocation. -/
theorem C6_dispatcher_not_due_no_dispatch (threshold : Int) (alarms : List alarm_t)
    (q : List Nat) (ts acquire_ok : Bool) (just_now : Nat)
    (h : alarms = [] ∨ ∃ front rest, alarms = front :: rest ∧ just_now < front.deadline) :
    (callback_dispatch_step threshold alarms q ts just_now acquire_ok).enqueued = none
    ∧ (callback_dispatch_step threshold alarms q ts just_now acquire_ok).alarms = alarms
    ∧ (callback_dispatch_step threshold alarms q ts just_now acquire_ok).queue = q
    ∧ (callback_dispatch_step threshold alarms q ts just_now acquire_ok).timer_set
        = (reschedule_root_alarm threshold alarms ts just_now acquire_ok).timer_set
    ∧ (callback_dispatch_step threshold alarms q ts just_now acquire_ok).acquire_calls
        = (reschedule_root_alarm threshold alarms ts just_now acquire_ok).acquire_calls
    ∧ (callback_dispatch_step threshold alarms q ts just_now acquire_ok).release_calls
        = (reschedule_root_alarm threshold alarms ts just_now acquire_ok).release_calls := by
  rcases h with h | ⟨front, rest, h, hfut⟩
  · subst h
    exact ⟨rfl, rfl, rfl, rfl, rfl, rfl⟩
  · subst h
    simp only [callback_dispatch_step]
    rw [if_pos hfut]
    exact ⟨rfl, rfl, rfl, rfl, rfl, rfl⟩

/-- Witness for C6: a single pending alarm due at 500 observed at time 0 is
not dispatched. -/
theorem C6_dispatcher_not_due_no_dispatch_witness :
    (callback_dispatch_step 3000 [⟨1, 0, 500, 500, 0, false, some 0, some 7, none, 0, 0, 0⟩]
        [] false 0 true).enqueued = none
    ∧ (callback_dispatch_step 3000 [⟨1, 0, 500, 500, 0, false, some 0, some 7, none, 0, 0, 0⟩]
        [] false 0 true).alarms = [⟨1, 0, 500, 500, 0, false, some 0, some 7, none, 0, 0, 0⟩]
    ∧ (callback_dispatch_step 3000 [⟨1, 0, 500, 500, 0, false, some 0, some 7, none, 0, 0, 0⟩]
        [] false 0 true).queue = []
    ∧ (callback_dispatch_step 3000 [⟨1, 0, 500, 500, 0, false, some 0, some 7, none, 0, 0, 0⟩]
        [] false 0 true).timer_set
        = (reschedule_root_alarm 3000 [⟨1, 0, 500, 500, 0, false, some 0, some 7, none, 0, 0, 0⟩]
            false 0 true).timer_set
    ∧ (callback_dispatch_step 3000 [⟨1, 0, 500, 500, 0, false, some 0, some 7, none, 0, 0, 0⟩]
        [] false 0 true).acquire_calls
        = (reschedule_root_alarm 3000 [⟨1, 0, 500, 500, 0, false, some 0, some 7, none, 0, 0, 0⟩]
            false 0 true).acquire_calls
    ∧ (callback_dispatch_step 3000 [⟨1, 0, 500, 500, 0, false, some 0, some 7, none, 0, 0, 0⟩]
        [] false 0 true).release_calls
        = (reschedule_root_alarm 3000 [⟨1, 0, 500, 500, 0, false, some 0, some 7, none, 0, 0, 0⟩]
            false 0 true).release_calls :=
  C6_dispatcher_not_due_no_dispatch 3000
    [⟨1, 0, 500, 500, 0, false, some 0, some 7, none, 0, 0, 0⟩] [] false true 0
    (Or.inr ⟨⟨1, 0, 500, 500, 0, false, some 0, some 7, none, 0, 0, 0⟩, [], rfl, by decide⟩)

/-- Claim C7: when the worker-queue handler dequeues an alarm it captures
`callback`, `data`, and the effective deadline used for statistics —
`prev_deadline` for a periodic alarm, `deadline` otherwise — and clears
`callback`, `data` and `deadline` exactly when the alarm is one-shot (an
empty dequeue dispatches nothing). -/
theorem C7_queue_ready_capture_clear (a : alarm_t) :
    (alarm_queue_ready (some a)).dispatched
        = some (a.callback, a.data, if a.is_periodic then a.prev_deadline else a.deadline)
    ∧ (alarm_queue_ready (some a)).alarm
        = some (if a.is_periodic then a
                else { a with deadline := 0, callback := none, data := none })
    ∧ alarm_queue_ready none = ⟨none, none⟩ := by
  cases h : a.is_periodic <;> simp [alarm_queue_ready, h]

lemma drain_queue_removes (q : List Nat) (aid : Nat) : ∀ i ∈ drain_queue q aid, i ≠ aid := by
  induction q with
  | nil => simp [drain_queue]
  | cons x xs ih =>
    by_cases hx : x = aid
    · simpa [drain_queue, hx] using ih
    · simp only [drain_queue, beq_iff_eq, if_neg hx]
      intro i hi
      rcases List.mem_cons.mp hi with hi | hi
      · exact hi ▸ hx
      · exact ih i hi

lemma list_remove_removes (l : List alarm_t) (aid : Nat)
    (h : l.countP (fun x => x.aid == aid) ≤ 1) :
    ∀ x ∈ list_remove l aid, x.aid ≠ aid := by
  induction l with
  | nil => simp [list_remove]
  | cons y ys ih =>
    by_cases hy : y.aid = aid
    · have hrw : list_remove (y :: ys) aid = ys := by
        simp [list_remove, hy]
      have hcount : ys.countP (fun x => x.aid == aid) = 0 := by
        rw [List.countP_cons_of_pos (fun x : alarm_t => x.aid == aid) ys
          (show ((fun x : alarm_t => x.aid == aid) y) = true by simpa using hy)] at h
        omega
      have hnone := List.countP_eq_zero.mp hcount
      intro x hx hc
      rw [hrw] at hx
      exact hnone x hx (by simp [hc])
    · have hrw : list_remove (y :: ys) aid = y :: list_remove ys aid := by
        simp [list_remove, hy]
      intro x hx
      rw [hrw] at hx
      rcases List.mem_cons.mp hx with hx | hx
      · exact hx ▸ hy
      · refine ih ?_ x hx
        rw [List.countP_cons_of_neg (fun x : alarm_t => x.aid == aid) ys
          (show ¬((fun x : alarm_t => x.aid == aid) y) = true by simpa using hy)] at h
        exact h

lemma alarm_cancel_internal_rescheduled (threshold : Int) (alarms : List alarm_t)
    (q : List Nat) (ts acquire_ok : Bool) (a : alarm_t) (just_now : Nat) :
    (alarm_cancel_internal threshold alarms q ts a just_now acquire_ok).rescheduled
      = (match alarms with
         | [] => false
         | front :: _ => front.aid == a.aid) := by
  simp only [alarm_cancel_internal]
  split
  next hcond => exact hcond.symm
  next hcond => exact (Bool.eq_false_iff.mpr hcond).symm

lemma alarm_cancel_internal_fields (threshold : Int) (alarms : List alarm_t) (q : List Nat)
    (ts acquire_ok : Bool) (a : alarm_t) (just_now : Nat) :
    (alarm_cancel_internal threshold alarms q ts a just_now acquire_ok).alarm
        = { a with deadline := 0, prev_deadline := 0, callback := none, data := none,
                   canceled_count := a.canceled_count + 1, queue := none }
    ∧ (alarm_cancel_internal threshold alarms q ts a just_now acquire_ok).alarms
        = list_remove alarms a.aid
    ∧ (alarm_cancel_internal threshold alarms q ts a just_now acquire_ok).queue
        = drain_queue q a.aid := by
  simp only [alarm_cancel_internal]
  split <;> exact ⟨rfl, rfl, rfl⟩

/-- Claim C8: `alarm_cancel_internal` removes the alarm from the pending
list and every stale copy from its worker queue, clears `deadline`,
`prev_deadline`, `callback`, `data` and `queue`, increments
`canceled_count`, re-evaluates the wake policy exactly when the alarm was
at the front of the pending list, and afterwards `alarm_is_scheduled`
returns false for it. -/
theorem C8_cancel_internal_spec (threshold : Int) (alarms : List alarm_t) (q : List Nat)
    (ts acquire_ok : Bool) (a : alarm_t) (just_now : Nat)
    (h : alarms.countP (fun x => x.aid == a.aid) ≤ 1) :
    (∀ x ∈ (alarm_cancel_internal threshold alarms q ts a just_now acquire_ok).alarms,
        x.aid ≠ a.aid)
    ∧ (∀ i ∈ (alarm_cancel_internal threshold alarms q ts a just_now acquire_ok).queue,
        i ≠ a.aid)
    ∧ (alarm_cancel_internal threshold alarms q ts a just_now acquire_ok).alarm.deadline = 0
    ∧ (alarm_cancel_internal threshold alarms q ts a just_now acquire_ok).alarm.prev_deadline = 0
    ∧ (alarm_cancel_internal threshold alarms q ts a just_now acquire_ok).alarm.callback = none
    ∧ (alarm_cancel_internal threshold alarms q ts a just_now acquire_ok).alarm.data = none
    ∧ (alarm_cancel_internal threshold alarms q ts a just_now acquire_ok).alarm.queue = none
    ∧ (alarm_cancel_internal threshold alarms q ts a just_now acquire_ok).alarm.canceled_count
        = a.canceled_count + 1
    ∧ ((alarm_cancel_internal threshold alarms q ts a just_now acquire_ok).rescheduled = true
        ↔ ∃ front rest, alarms = front :: rest ∧ front.aid = a.aid)
    ∧ alarm_is_scheduled
        (some (alarm_cancel_internal threshold alarms q ts a just_now acquire_ok).alarms)
        (some (alarm_cancel_internal threshold alarms q ts a just_now acquire_ok).alarm)
        = false := by
  obtain ⟨hrec, hlist, hqueue⟩ :=
    alarm_cancel_internal_fields threshold alarms q ts acquire_ok a just_now
  refine ⟨?_, ?_, by rw [hrec], by rw [hrec], by rw [hrec], by rw [hrec], by rw [hrec],
    by rw [hrec], ?_, by rw [hrec]; rfl⟩
  · rw [hlist]
    exact list_remove_removes alarms a.aid h
  · rw [hqueue]
    exact drain_queue_removes q a.aid
  · rw [alarm_cancel_internal_rescheduled]
    rcases alarms with _ | ⟨f, rest⟩
    · constructor
      · intro hfalse
        exact Bool.noConfusion hfalse
      · rintro ⟨front, rest', heq, _⟩
        exact List.noConfusion heq
    · constructor
      · intro htrue
        exact ⟨f, rest, rfl, by simpa using htrue⟩
      · rintro ⟨front, rest', heq, ha⟩
        rw [List.cons.injEq] at heq
        have hfa : f.aid = a.aid := by rw [heq.1]; exact ha
        simpa using hfa

/-- Witness for C8 at a concrete two-element pending list whose front is
the canceled alarm. -/
theorem C8_cancel_internal_spec_witness :
    (∀ x ∈ (alarm_cancel_internal 3000
        [⟨1, 0, 100, 100, 0, false, some 0, some 7, none, 1, 0, 0⟩,
          ⟨2, 0, 200, 200, 0, false, some 0, some 8, none, 1, 0, 0⟩] [1, 1] true
        ⟨1, 0, 100, 100, 0, false, some 0, some 7, none, 1, 0, 0⟩ 0 true).alarms, x.aid ≠ 1)
    ∧ (∀ i ∈ (alarm_cancel_internal 3000
        [⟨1, 0, 100, 100, 0, false, some 0, some 7, none, 1, 0, 0⟩,
          ⟨2, 0, 200, 200, 0, false, some 0, some 8, none, 1, 0, 0⟩] [1, 1] true
        ⟨1, 0, 100, 100, 0, false, some 0, some 7, none, 1, 0, 0⟩ 0 true).queue, i ≠ 1)
    ∧ (alarm_cancel_internal 3000
        [⟨1, 0, 100, 100, 0, false, some 0, some 7, none, 1, 0, 0⟩,
          ⟨2, 0, 200, 200, 0, false, some 0, some 8, none, 1, 0, 0⟩] [1, 1] true
        ⟨1, 0, 100, 100, 0, false, some 0, some 7, none, 1, 0, 0⟩ 0 true).alarm.deadline = 0
    ∧ (alarm_cancel_internal 3000
        [⟨1, 0, 100, 100, 0, false, some 0, some 7, none, 1, 0, 0⟩,
          ⟨2, 0, 200, 200, 0, false, some 0, some 8, none, 1, 0, 0⟩] [1, 1] true
        ⟨1, 0, 100, 100, 0, false, some 0, some 7, none, 1, 0, 0⟩ 0 true).alarm.prev_deadline = 0
    ∧ (alarm_cancel_internal 3000
        [⟨1, 0, 100, 100, 0, false, some 0, some 7, none, 1, 0, 0⟩,
          ⟨2, 0, 200, 200, 0, false, some 0, some 8, none, 1, 0, 0⟩] [1, 1] true
        ⟨1, 0, 100, 100, 0, false, some 0, some 7, none, 1, 0, 0⟩ 0 true).alarm.callback = none
    ∧ (alarm_cancel_internal 3000
        [⟨1, 0, 100, 100, 0, false, some 0, some 7, none, 1, 0, 0⟩,
          ⟨2, 0, 200, 200, 0, false, some 0, some 8, none, 1, 0, 0⟩] [1, 1] true
        ⟨1, 0, 100, 100, 0, false, some 0, some 7, none, 1, 0, 0⟩ 0 true).alarm.data = none
    ∧ (alarm_cancel_internal 3000
        [⟨1, 0, 100, 100, 0, false, some 0, some 7, none, 1, 0, 0⟩,
          ⟨2, 0, 200, 200, 0, false, some 0, some 8, none, 1, 0, 0⟩] [1, 1] true
        ⟨1, 0, 100, 100, 0, false, some 0, some 7, none, 1, 0, 0⟩ 0 true).alarm.queue = none
    ∧ (alarm_cancel_internal 3000
        [⟨1, 0, 100, 100, 0, false, some 0, some 7, none, 1, 0, 0⟩,
          ⟨2, 0, 200, 200, 0, false, some 0, some 8, none, 1, 0, 0⟩] [1, 1] true
        ⟨1, 0, 100, 100, 0, false, some 0, some 7, none, 1, 0, 0⟩ 0 true).alarm.canceled_count
        = 0 + 1
    ∧ ((alarm_cancel_internal 3000
        [⟨1, 0, 100, 100, 0, false, some 0, some 7, none, 1, 0, 0⟩,
          ⟨2, 0, 200, 200, 0, false, some 0, some 8, none, 1, 0, 0⟩] [1, 1] true
        ⟨1, 0, 100, 100, 0, false, some 0, some 7, none, 1, 0, 0⟩ 0 true).rescheduled = true
        ↔ ∃ front rest,
            ([⟨1, 0, 100, 100, 0, false, some 0, some 7, none, 1, 0, 0⟩,
              ⟨2, 0, 200, 200, 0, false, some 0, some 8, none, 1, 0, 0⟩] : List alarm_t)
              = front :: rest ∧ front.aid = 1)
    ∧ alarm_is_scheduled
        (some (alarm_cancel_internal 3000
          [⟨1, 0, 100, 100, 0, false, some 0, some 7, none, 1, 0, 0⟩,
            ⟨2, 0, 200, 200, 0, false, some 0, some 8, none, 1, 0, 0⟩] [1, 1] true
          ⟨1, 0, 100, 100, 0, false, some 0, some 7, none, 1, 0, 0⟩ 0 true).alarms)
        (some (alarm_cancel_internal 3000
          [⟨1, 0, 100, 100, 0, false, some 0, some 7, none, 1, 0, 0⟩,
            ⟨2, 0, 200, 200, 0, false, some 0, some 8, none, 1, 0, 0⟩] [1, 1] true
          ⟨1, 0, 100, 100, 0, false, some 0, some 7, none, 1, 0, 0⟩ 0 true).alarm)
        = false :=
  C8_cancel_internal_spec 3000
    [⟨1, 0, 100, 100, 0, false, some 0, some 7, none, 1, 0, 0⟩,
      ⟨2, 0, 200, 200, 0, false, some 0, some 8, none, 1, 0, 0⟩] [1, 1] true true
    ⟨1, 0, 100, 100, 0, false, some 0, some 7, none, 1, 0, 0⟩ 0 (by decide)

/-- Claim C10: `alarm_cancel` on a NULL alarm returns without modifying any
state (given the asserted initialized service), `alarm_free` on a NULL
alarm returns immediately regardless of initialization, and
`alarm_is_scheduled` returns false both for a NULL alarm pointer and for a
never-initialized service instead of asserting. -/
theorem C10_null_tolerance (s : EngineState) (l : List alarm_t) (x : Option alarm_t)
    (just_now : Nat) (acquire_ok : Bool) (h : s.alarms = some l) :
    alarm_cancel_eng s none just_now acquire_ok = some (s, none)
    ∧ alarm_free_eng s none just_now acquire_ok = some s
    ∧ alarm_is_scheduled none x = false
    ∧ alarm_is_scheduled (some l) none = false := by
  refine ⟨?_, rfl, rfl, rfl⟩
  simp only [alarm_cancel_eng, h]

/-- Witness for C10 at the freshly initialized engine state. -/
theorem C10_null_tolerance_witness :
    alarm_cancel_eng engine_init none 0 true = some (engine_init, none)
    ∧ alarm_free_eng engine_init none 0 true = some engine_init
    ∧ alarm_is_scheduled none none = false
    ∧ alarm_is_scheduled (some []) none = false :=
  C10_null_tolerance engine_init [] none 0 true rfl

/-- Claim C1 (the code violates it): there is a run — set one alarm 100 ms
out so the short-horizon branch acquires the wake lock and sets
`timer_set`, then call `alarm_cleanup` — after which the engine is fully
quiesced (`alarms` freed, queue empty) yet `acquire_wake_lock` was called
once and `release_wake_lock` never: `alarm_cleanup` contains no
`release_wake_lock` call and never consults `timer_set`, so a held wake
lock leaks on teardown. -/
theorem C1_cleanup_wakelock_leak :
    ∃ p : EngineState × alarm_t,
      alarm_set_internal_eng engine_init ⟨1, 0, 0, 0, 0, false, none, none, none, 0, 0, 0⟩
          100 7 none 0 0 true = some p
      ∧ p.1.timer_set = true
      ∧ alarm_cleanup p.1
          = { alarms := none, queue := [], timer_set := true, acquires := 1, releases := 0 }
      ∧ (alarm_cleanup p.1).acquires ≠ (alarm_cleanup p.1).releases := by
  refine ⟨(⟨some [⟨1, 0, 100, 100, 0, false, some 0, some 7, none, 1, 0, 0⟩], [], true, 1, 0⟩,
    ⟨1, 0, 100, 100, 0, false, some 0, some 7, none, 1, 0, 0⟩), ?_, rfl, rfl, by decide⟩
  rfl
